import Mathlib

/-!
Verification of the Execution Trace Model & Aggregation Engine of the
campaign-management platform.

The embedding models:
- the Entity Store and Execution Ledger tables from the SQL migrations
  (001_initial_schema.sql, 005_add_media_files_table.sql,
  007_add_execution_tracking.sql): rows of campaigns, ad_sets, posts,
  research, media_files, execution_logs;
- the `execution_summary` SQL view of migration 007 (the Summary Projector);
- the data-access functions of workflow-inspector/src/lib/supabase.ts
  (`getExecutionSummaries`, `getExecutionDetails`) — the Trace Assembler;
- the polling loop of workflow-inspector/src/lib/api.ts
  (`ExecutionAPI.subscribeToExecution`) — the Live View Synchronizer.

Timestamps are modelled as integers (epoch seconds); JSONB payloads are
modelled as opaque optional strings; SQL COUNT results as naturals.
Supabase query replies are modelled by a `data`/`error` pair exactly as the
client library returns them, with an explicit injection of transient fetch
failures so that the error-handling paths of `getExecutionDetails` can be
analysed.
-/

/-- Row of the `campaigns` table (001_initial_schema.sql plus the
`execution_id`/`execution_metadata` columns added by migration 007). -/
structure CampaignRow where
  id : String
  initiative_id : String
  name : String
  objective : String
  description : Option String := none
  daily_budget : Option Int := none
  lifetime_budget : Option Int := none
  status : Option String := none
  execution_id : Option String := none
  execution_metadata : Option String := none
  created_at : Int
  updated_at : Int
deriving Repr, DecidableEq

/-- Row of the `ad_sets` table (001_initial_schema.sql plus the
`execution_id`/`execution_step` columns added by migration 007). -/
structure AdSetRow where
  id : String
  campaign_id : String
  initiative_id : String
  name : String
  daily_budget : Option Int := none
  lifetime_budget : Option Int := none
  post_frequency : Option Int := none
  post_volume : Option Int := none
  execution_id : Option String := none
  execution_step : Option String := none
  created_at : Int
deriving Repr, DecidableEq

/-- Row of the `posts` table (001_initial_schema.sql plus the
`execution_id`/`execution_step` columns added by migration 007). -/
structure PostRow where
  id : String
  ad_set_id : String
  initiative_id : String
  post_type : String
  text_content : Option String := none
  status : Option String := none
  is_published : Option Bool := none
  execution_id : Option String := none
  execution_step : Option String := none
  created_at : Int
deriving Repr, DecidableEq

/-- Row of the `research` table (001_initial_schema.sql plus the
`execution_id`/`execution_step` columns added by migration 007). -/
structure ResearchRow where
  id : String
  initiative_id : String
  research_type : String
  topic : String
  summary : Option String := none
  execution_id : Option String := none
  execution_step : Option String := none
  created_at : Int
deriving Repr, DecidableEq

/-- Row of the `media_files` table (005_add_media_files_table.sql plus the
`execution_id`/`execution_step` columns added by migration 007). -/
structure MediaFileRow where
  id : String
  initiative_id : String
  file_type : String
  supabase_path : String
  public_url : String
  prompt_used : Option String := none
  duration_seconds : Option Int := none
  execution_id : Option String := none
  execution_step : Option String := none
  created_at : Int
deriving Repr, DecidableEq

/-- Row of the `execution_logs` table created by migration 007
(`execution_id` is NOT NULL UNIQUE; `status` defaults to running;
`steps_completed`/`steps_failed` are JSONB arrays of step names). -/
structure ExecutionLogRow where
  id : String
  execution_id : String
  initiative_id : String
  workflow_type : String
  status : String
  started_at : Int
  completed_at : Option Int := none
  steps_completed : List String := []
  steps_failed : List String := []
  error_messages : Option String := none
  metadata : Option String := none
  created_at : Int
  updated_at : Int
deriving Repr, DecidableEq

/-- The database state visible to the inspector: the Entity Store tables and
the Execution Ledger table. -/
structure Store where
  execution_logs : List ExecutionLogRow := []
  campaigns : List CampaignRow := []
  ad_sets : List AdSetRow := []
  posts : List PostRow := []
  research : List ResearchRow := []
  media_files : List MediaFileRow := []
deriving Repr, DecidableEq

/-- Output row of the `execution_summary` view (migration 007), matching the
`ExecutionSummary` interface of workflow-inspector/src/lib/supabase.ts. -/
structure ExecutionSummary where
  execution_id : String
  initiative_id : String
  workflow_type : String
  status : String
  started_at : Int
  completed_at : Option Int
  duration_seconds : Int
  campaigns_created : Nat
  ad_sets_created : Nat
  posts_created : Nat
  research_entries : Nat
  media_files_created : Nat
  steps_completed : List String
  steps_failed : List String
  metadata : Option String
deriving Repr, DecidableEq

/-- One row of the `execution_summary` view for one `execution_logs` row:
`EXTRACT(EPOCH FROM (COALESCE(el.completed_at, CURRENT_TIMESTAMP) - el.started_at))`
for the duration and one correlated `SELECT COUNT(*) ... WHERE execution_id =
el.execution_id` subquery per entity table. -/
def projectRow (s : Store) (now : Int) (el : ExecutionLogRow) : ExecutionSummary :=
  { execution_id := el.execution_id
    initiative_id := el.initiative_id
    workflow_type := el.workflow_type
    status := el.status
    started_at := el.started_at
    completed_at := el.completed_at
    duration_seconds := (el.completed_at.getD now) - el.started_at
    campaigns_created :=
      (s.campaigns.filter (fun r => r.execution_id == some el.execution_id)).length
    ad_sets_created :=
      (s.ad_sets.filter (fun r => r.execution_id == some el.execution_id)).length
    posts_created :=
      (s.posts.filter (fun r => r.execution_id == some el.execution_id)).length
    research_entries :=
      (s.research.filter (fun r => r.execution_id == some el.execution_id)).length
    media_files_created :=
      (s.media_files.filter (fun r => r.execution_id == some el.execution_id)).length
    steps_completed := el.steps_completed
    steps_failed := el.steps_failed
    metadata := el.metadata }

/-- The `execution_summary` view: `SELECT ... FROM execution_logs el`, one
derived row per ledger row, recomputed from the current store state on every
query (the view is not materialized). -/
def execution_summary (s : Store) (now : Int) : List ExecutionSummary :=
  s.execution_logs.map (projectRow s now)

/-- The Summary Projector read for one execution: querying the
`execution_summary` view filtered by execution identifier. -/
def project (s : Store) (now : Int) (e : String) : Option ExecutionSummary :=
  ((execution_summary s now).filter (fun r => r.execution_id == e)).head?

/-- Insert an element into a list already descending in `key`, keeping it
descending. -/
def insertDesc (key : α → Int) (x : α) : List α → List α
  | [] => [x]
  | y :: ys => if key y ≤ key x then x :: y :: ys else y :: insertDesc key x ys

/-- ORDER BY key DESC, as issued by `.order(column, { ascending: false })`:
an insertion sort descending in `key`. -/
def orderDesc (key : α → Int) : List α → List α
  | [] => []
  | x :: xs => insertDesc key x (orderDesc key xs)

/-- Shape of a supabase-js query reply: a `data` field and an `error` field,
exactly one of which is set. -/
structure QueryReply (α : Type) where
  data : Option α
  error : Option String
deriving Repr, DecidableEq

/-- A list query (`select('*')` with filters); `ok` injects whether this
fetch succeeds or fails transiently. -/
def runListQuery (ok : Bool) (rows : List α) : QueryReply (List α) :=
  if ok then { data := some rows, error := none }
  else { data := none, error := some "fetch failed" }

/-- A `.single()` query: yields the unique matching row, or an error when
zero (or several) rows match. -/
def runSingleQuery (rows : List α) : QueryReply α :=
  match rows with
  | [x] => { data := some x, error := none }
  | _ => { data := none, error := some "JSON object requested, multiple (or no) rows returned" }

/-- Which of the six parallel collection fetches of `getExecutionDetails`
succeed on this call (the summary fetch outcome is determined by the store). -/
structure FetchOutcomes where
  campaignsOk : Bool := true
  adSetsOk : Bool := true
  postsOk : Bool := true
  researchOk : Bool := true
  mediaFilesOk : Bool := true
  logsOk : Bool := true
deriving Repr, DecidableEq

/-- The call in which every fetch succeeds. -/
def allFetchesOk : FetchOutcomes := {}

/-- The call in which all five entity-collection fetches fail transiently
(the summary and logs fetches succeed). -/
def failEntityFetches : FetchOutcomes :=
  { campaignsOk := false, adSetsOk := false, postsOk := false,
    researchOk := false, mediaFilesOk := false }

/-- The `ExecutionData` interface of workflow-inspector/src/lib/supabase.ts:
the Trace handed to the consumer. -/
structure ExecutionData where
  summary : ExecutionSummary
  campaigns : List CampaignRow
  adSets : List AdSetRow
  posts : List PostRow
  research : List ResearchRow
  mediaFiles : List MediaFileRow
  logs : List ExecutionLogRow
deriving Repr, DecidableEq

deriving instance DecidableEq for Except

/-- The Trace Assembler, `getExecutionDetails` of
workflow-inspector/src/lib/supabase.ts: seven parallel queries (summary via
`.single()`, six collections filtered by execution identifier and ordered by
`created_at` descending); the call throws if the summary reply carries an
error or no data, and each collection falls back to `[]` (`data || []`)
otherwise. -/
def getExecutionDetails (s : Store) (now : Int) (f : FetchOutcomes)
    (executionId : String) : Except String ExecutionData :=
  let summaryResult :=
    runSingleQuery ((execution_summary s now).filter (fun r => r.execution_id == executionId))
  let campaignsResult :=
    runListQuery f.campaignsOk
      (orderDesc (fun r => r.created_at)
        (s.campaigns.filter (fun r => r.execution_id == some executionId)))
  let adSetsResult :=
    runListQuery f.adSetsOk
      (orderDesc (fun r => r.created_at)
        (s.ad_sets.filter (fun r => r.execution_id == some executionId)))
  let postsResult :=
    runListQuery f.postsOk
      (orderDesc (fun r => r.created_at)
        (s.posts.filter (fun r => r.execution_id == some executionId)))
  let researchResult :=
    runListQuery f.researchOk
      (orderDesc (fun r => r.created_at)
        (s.research.filter (fun r => r.execution_id == some executionId)))
  let mediaFilesResult :=
    runListQuery f.mediaFilesOk
      (orderDesc (fun r => r.created_at)
        (s.media_files.filter (fun r => r.execution_id == some executionId)))
  let logsResult :=
    runListQuery f.logsOk
      (orderDesc (fun r => r.created_at)
        (s.execution_logs.filter (fun r => r.execution_id == executionId)))
  match summaryResult.error with
  | some msg => .error msg
  | none =>
    match summaryResult.data with
    | none => .error "Execution not found"
    | some summary =>
      .ok { summary := summary
            campaigns := campaignsResult.data.getD []
            adSets := adSetsResult.data.getD []
            posts := postsResult.data.getD []
            research := researchResult.data.getD []
            mediaFiles := mediaFilesResult.data.getD []
            logs := logsResult.data.getD [] }

/-- The execution-listing operation, `getExecutionSummaries` of
workflow-inspector/src/lib/supabase.ts: query the `execution_summary` view
ordered by `started_at` descending with `.limit(50)`; a query error is
caught and turned into the empty list. -/
def getExecutionSummaries (s : Store) (now : Int) (fetchOk : Bool) :
    List ExecutionSummary :=
  let q := runListQuery fetchOk
    ((orderDesc (fun r => r.started_at) (execution_summary s now)).take 50)
  match q.error with
  | some _ => []
  | none => q.data.getD []

/-- The fixed polling interval of `ExecutionAPI.subscribeToExecution`
(workflow-inspector/src/lib/api.ts line 99): `setInterval(checkStatus, 5000)`. -/
def POLL_INTERVAL_MS : Nat := 5000

/-- The polling loop of `ExecutionAPI.subscribeToExecution`
(workflow-inspector/src/lib/api.ts lines 83-99), run over the sequence of
observed summary-fetch outcomes (`none` = the fetch threw, which is only
logged; `some st` = the fetched summary has status `st`). Each tick runs
`checkStatus`: on status `running` it invokes `callback()` (a nullary
callback: no Trace is passed) and keeps polling; on any other status it
clears the interval without invoking the callback, so later observations
never occur. Returns the number of callback invocations and whether the
interval was cleared by a terminal observation. -/
def subscribePollRun : List (Option String) → Nat × Bool
  | [] => (0, false)
  | none :: rest => subscribePollRun rest
  | some st :: rest =>
    if st == "running" then
      let r := subscribePollRun rest
      (r.1 + 1, r.2)
    else (0, true)

/-! ## Characterization lemmas for the Trace Assembler -/

/-- The value a successful `getExecutionDetails` call returns: the unique
summary row plus, for each collection, the ordered filtered rows when the
fetch succeeded and `[]` when it failed. -/
def assembledData (s : Store) (f : FetchOutcomes) (e : String)
    (x : ExecutionSummary) : ExecutionData :=
  { summary := x
    campaigns :=
      if f.campaignsOk then
        orderDesc (fun r => r.created_at)
          (s.campaigns.filter (fun r => r.execution_id == some e))
      else []
    adSets :=
      if f.adSetsOk then
        orderDesc (fun r => r.created_at)
          (s.ad_sets.filter (fun r => r.execution_id == some e))
      else []
    posts :=
      if f.postsOk then
        orderDesc (fun r => r.created_at)
          (s.posts.filter (fun r => r.execution_id == some e))
      else []
    research :=
      if f.researchOk then
        orderDesc (fun r => r.created_at)
          (s.research.filter (fun r => r.execution_id == some e))
      else []
    mediaFiles :=
      if f.mediaFilesOk then
        orderDesc (fun r => r.created_at)
          (s.media_files.filter (fun r => r.execution_id == some e))
      else []
    logs :=
      if f.logsOk then
        orderDesc (fun r => r.created_at)
          (s.execution_logs.filter (fun r => r.execution_id == e))
      else [] }

theorem runListQuery_data (ok : Bool) (rows : List α) :
    (runListQuery ok rows).data.getD [] = if ok then rows else [] := by
  cases ok <;> rfl

/-- Filtering the view by execution identifier is filtering the ledger rows
and projecting each survivor. -/
theorem summary_filter_eq (s : Store) (now : Int) (e : String) :
    (execution_summary s now).filter (fun r => r.execution_id == e) =
      (s.execution_logs.filter (fun el => el.execution_id == e)).map
        (projectRow s now) := by
  unfold execution_summary
  rw [List.filter_map]
  rfl

theorem getExecutionDetails_ok_of_single (s : Store) (now : Int)
    (f : FetchOutcomes) (e : String) (x : ExecutionSummary)
    (h : (execution_summary s now).filter (fun r => r.execution_id == e) = [x]) :
    getExecutionDetails s now f e = .ok (assembledData s f e x) := by
  unfold getExecutionDetails assembledData
  rw [h]
  simp [runSingleQuery, runListQuery_data]

theorem getExecutionDetails_error_of_nil (s : Store) (now : Int)
    (f : FetchOutcomes) (e : String)
    (h : (execution_summary s now).filter (fun r => r.execution_id == e) = []) :
    getExecutionDetails s now f e =
      .error "JSON object requested, multiple (or no) rows returned" := by
  unfold getExecutionDetails
  rw [h]
  rfl

theorem getExecutionDetails_error_of_cons_cons (s : Store) (now : Int)
    (f : FetchOutcomes) (e : String) (x y : ExecutionSummary)
    (t : List ExecutionSummary)
    (h : (execution_summary s now).filter (fun r => r.execution_id == e) =
      x :: y :: t) :
    getExecutionDetails s now f e =
      .error "JSON object requested, multiple (or no) rows returned" := by
  unfold getExecutionDetails
  rw [h]
  rfl

theorem getExecutionDetails_ok_elim (s : Store) (now : Int)
    (f : FetchOutcomes) (e : String) (d : ExecutionData)
    (h : getExecutionDetails s now f e = .ok d) :
    ∃ x, (execution_summary s now).filter (fun r => r.execution_id == e) = [x] ∧
      d = assembledData s f e x := by
  cases hfil : (execution_summary s now).filter (fun r => r.execution_id == e) with
  | nil =>
    rw [getExecutionDetails_error_of_nil s now f e hfil] at h
    cases h
  | cons x t =>
    cases t with
    | nil =>
      refine ⟨x, rfl, ?_⟩
      rw [getExecutionDetails_ok_of_single s now f e x hfil] at h
      cases h
      rfl
    | cons y t' =>
      rw [getExecutionDetails_error_of_cons_cons s now f e x y t' hfil] at h
      cases h

/-- Everything in `insertDesc key x l` is `x` or comes from `l`. -/
theorem mem_insertDesc (key : α → Int) (x : α) (l : List α) :
    ∀ z ∈ insertDesc key x l, z = x ∨ z ∈ l := by
  induction l with
  | nil =>
    intro z hz
    simp [insertDesc] at hz
    exact Or.inl hz
  | cons y ys ih =>
    intro z hz
    by_cases hle : key y ≤ key x
    · simp [insertDesc, hle] at hz
      rcases hz with h | h | h
      · exact Or.inl h
      · exact Or.inr (by simp [h])
      · exact Or.inr (List.mem_cons_of_mem _ h)
    · simp [insertDesc, hle] at hz
      rcases hz with h | h
      · exact Or.inr (by simp [h])
      · rcases ih z h with h' | h'
        · exact Or.inl h'
        · exact Or.inr (List.mem_cons_of_mem _ h')

/-- Inserting into a descending list yields a descending list. -/
theorem insertDesc_sorted (key : α → Int) (x : α) (l : List α)
    (h : l.Pairwise (fun a b => key b ≤ key a)) :
    (insertDesc key x l).Pairwise (fun a b => key b ≤ key a) := by
  induction l with
  | nil => simp [insertDesc]
  | cons y ys ih =>
    rcases List.pairwise_cons.mp h with ⟨hy, hys⟩
    by_cases hle : key y ≤ key x
    · simp only [insertDesc, if_pos hle]
      refine List.pairwise_cons.mpr ⟨?_, h⟩
      intro z hz
      rcases List.mem_cons.mp hz with rfl | hz'
      · exact hle
      · exact le_trans (hy _ hz') hle
    · simp only [insertDesc, if_neg hle]
      refine List.pairwise_cons.mpr ⟨?_, ih hys⟩
      intro z hz
      rcases mem_insertDesc key x ys z hz with rfl | hz'
      · omega
      · exact hy _ hz'

/-- Sorting with `orderDesc` yields a list pairwise descending in the key. -/
theorem orderDesc_sorted (key : α → Int) (rows : List α) :
    (orderDesc key rows).Pairwise (fun a b => key b ≤ key a) := by
  induction rows with
  | nil => simp [orderDesc]
  | cons x xs ih => exact insertDesc_sorted key x _ ih

/-! ## Concrete sample data used by witnesses and counterexamples -/

/-- A ledger row for a running execution `E1` of initiative `I1`. -/
def elRunning : ExecutionLogRow :=
  { id := "log-1", execution_id := "E1", initiative_id := "I1",
    workflow_type := "full_workflow", status := "running",
    started_at := 100, created_at := 100, updated_at := 100 }

/-- A campaign created under execution `E1` (the older of the two). -/
def campaignA : CampaignRow :=
  { id := "camp-A", initiative_id := "I1", name := "Campaign A",
    objective := "awareness", execution_id := some "E1",
    created_at := 110, updated_at := 110 }

/-- A campaign created under execution `E1` (the newer of the two). -/
def campaignB : CampaignRow :=
  { id := "camp-B", initiative_id := "I1", name := "Campaign B",
    objective := "engagement", execution_id := some "E1",
    created_at := 120, updated_at := 120 }

/-- A store with the `E1` ledger row and two campaigns tagged `E1`, stored
oldest first so that descending ordering is observable. -/
def sampleStore : Store :=
  { execution_logs := [elRunning], campaigns := [campaignA, campaignB] }

/-- A store with the `E1` ledger row and no tagged entities at all. -/
def justLedgerStore : Store := { execution_logs := [elRunning] }

/-- The summary row `E1` projects to over `sampleStore` at time 200. -/
def sampleSummaryE1 : ExecutionSummary := projectRow sampleStore 200 elRunning

/-- The trace a fully successful assembly of `E1` over `sampleStore` at time
200 returns. -/
def sampleTraceE1 : ExecutionData :=
  assembledData sampleStore allFetchesOk "E1" sampleSummaryE1

/-- The trace of the same assembly re-run at the later time 300. -/
def sampleTraceE1Later : ExecutionData :=
  assembledData sampleStore allFetchesOk "E1" (projectRow sampleStore 300 elRunning)

/-- The call in which only the campaigns fetch fails transiently. -/
def failCampaignsFetch : FetchOutcomes := { campaignsOk := false }

/-! ## Claim theorems -/

/-- C10: when the underlying store query fails, `getExecutionSummaries`
returns the empty list instead of propagating the error, and that result is
identical to a successful listing over a store with zero executions — a
caller cannot distinguish the two. -/
theorem getExecutionSummaries_swallows_errors (s : Store) (now : Int) :
    getExecutionSummaries s now false = [] ∧
      getExecutionSummaries s now false = getExecutionSummaries {} now true :=
  ⟨rfl, rfl⟩

/-- C8: for every state of the store (and whether or not the query
succeeds), the execution listing is ordered by `started_at` descending and
holds at most 50 results. -/
theorem getExecutionSummaries_order_and_cap (s : Store) (now : Int) (ok : Bool) :
    (getExecutionSummaries s now ok).Sorted
      (fun a b => b.started_at ≤ a.started_at) ∧
      (getExecutionSummaries s now ok).length ≤ 50 := by
  cases ok with
  | false =>
    exact ⟨List.sorted_nil, by simp [getExecutionSummaries, runListQuery]⟩
  | true =>
    have hs : getExecutionSummaries s now true =
        (orderDesc (fun r => r.started_at) (execution_summary s now)).take 50 := rfl
    rw [hs]
    constructor
    · exact List.Pairwise.sublist (List.take_sublist _ _)
        (orderDesc_sorted (fun r : ExecutionSummary => r.started_at) _)
    · exact List.length_take_le 50 _

/-- C7: within every Trace returned by `getExecutionDetails`, each of the
five entity collections is ordered newest-created first (descending by
`created_at`). -/
theorem assemble_collections_sorted (s : Store) (now : Int)
    (f : FetchOutcomes) (e : String) (d : ExecutionData)
    (h : getExecutionDetails s now f e = .ok d) :
    d.campaigns.Sorted (fun a b => b.created_at ≤ a.created_at) ∧
    d.adSets.Sorted (fun a b => b.created_at ≤ a.created_at) ∧
    d.posts.Sorted (fun a b => b.created_at ≤ a.created_at) ∧
    d.research.Sorted (fun a b => b.created_at ≤ a.created_at) ∧
    d.mediaFiles.Sorted (fun a b => b.created_at ≤ a.created_at) := by
  obtain ⟨x, hfil, rfl⟩ := getExecutionDetails_ok_elim s now f e d h
  refine ⟨?_, ?_, ?_, ?_, ?_⟩ <;>
  · dsimp only [assembledData]
    split
    · exact orderDesc_sorted _ _
    · exact List.sorted_nil

/-- Witness for C7 at `sampleStore`: assembling `E1` succeeds and its
campaign collection is sorted newest first. -/
theorem assemble_collections_sorted_witness :
    getExecutionDetails sampleStore 200 allFetchesOk "E1" = .ok sampleTraceE1 ∧
      sampleTraceE1.campaigns.Sorted (fun a b => b.created_at ≤ a.created_at) :=
  ⟨by decide,
   (assemble_collections_sorted sampleStore 200 allFetchesOk "E1" sampleTraceE1
      (by decide)).1⟩

/-- C5: the view computes `duration_seconds` at read time as now minus
started-at while the execution is running (completed-at absent, per the
ledger invariant), and as completed-at minus started-at once terminal; the
value is derived by the view from `COALESCE(completed_at, CURRENT_TIMESTAMP)`,
never stored. -/
theorem projectRow_duration_rule (s : Store) (now : Int) (el : ExecutionLogRow)
    (hinv : el.status = "running" ↔ el.completed_at = none) :
    (el.status = "running" →
      (projectRow s now el).duration_seconds = now - el.started_at) ∧
    (el.status ≠ "running" → ∃ c, el.completed_at = some c ∧
      (projectRow s now el).duration_seconds = c - el.started_at) := by
  constructor
  · intro h
    have hc := hinv.mp h
    simp [projectRow, hc]
  · intro h
    cases hc : el.completed_at with
    | none => exact absurd (hinv.mpr hc) h
    | some c => exact ⟨c, rfl, by simp [projectRow, hc]⟩

/-- Witness for C5 at the running ledger row `elRunning` read at time 200:
duration is 200 minus 100. -/
theorem projectRow_duration_rule_witness :
    (elRunning.status = "running" ↔ elRunning.completed_at = none) ∧
      (elRunning.status = "running" →
        (projectRow sampleStore 200 elRunning).duration_seconds =
          200 - elRunning.started_at) :=
  ⟨by decide,
   (projectRow_duration_rule sampleStore 200 elRunning (by decide)).1⟩

/-- C3: each of the five counts in `project(E)` is the exact cardinality, in
the current store state, of the rows of the corresponding entity table whose
execution identifier equals `E`; the view recomputes the correlated COUNT
subqueries on every read, so the theorem holds for every store state with no
cached component. -/
theorem project_counts_exact (s : Store) (now : Int) (e : String)
    (sum : ExecutionSummary) (h : project s now e = some sum) :
    sum.campaigns_created =
      (s.campaigns.filter (fun r => r.execution_id == some e)).length ∧
    sum.ad_sets_created =
      (s.ad_sets.filter (fun r => r.execution_id == some e)).length ∧
    sum.posts_created =
      (s.posts.filter (fun r => r.execution_id == some e)).length ∧
    sum.research_entries =
      (s.research.filter (fun r => r.execution_id == some e)).length ∧
    sum.media_files_created =
      (s.media_files.filter (fun r => r.execution_id == some e)).length := by
  unfold project at h
  rw [summary_filter_eq] at h
  cases hl : s.execution_logs.filter (fun el => el.execution_id == e) with
  | nil =>
    rw [hl] at h
    cases h
  | cons el t =>
    rw [hl] at h
    simp only [List.map_cons, List.head?_cons, Option.some.injEq] at h
    have hmem : el ∈ s.execution_logs.filter (fun el => el.execution_id == e) := by
      rw [hl]
      exact List.mem_cons_self _ _
    have he : el.execution_id = e := by
      simpa using (List.mem_filter.mp hmem).2
    subst h
    subst he
    exact ⟨rfl, rfl, rfl, rfl, rfl⟩

/-- Witness for C3 at `sampleStore`: `project(E1)` reports 2 campaigns and 0
of everything else, matching the store contents. -/
theorem project_counts_exact_witness :
    project sampleStore 200 "E1" = some sampleSummaryE1 ∧
      sampleSummaryE1.campaigns_created =
        ((sampleStore.campaigns.filter
          (fun r => r.execution_id == some "E1")).length) :=
  ⟨by decide,
   (project_counts_exact sampleStore 200 "E1" sampleSummaryE1 (by decide)).1⟩

/-- C4: `getExecutionDetails` on an execution identifier with no ledger row
fails (the `.single()` summary reply carries an error, which the code
throws); on a valid execution identifier with zero tagged entities it
succeeds with all five entity collections empty and all five counts 0. -/
theorem assemble_notfound_and_empty (s : Store) (now : Int) (e : String) :
    ((∀ el ∈ s.execution_logs, el.execution_id ≠ e) →
      ∀ f, ∃ msg, getExecutionDetails s now f e = .error msg) ∧
    (∀ el, s.execution_logs.filter (fun r => r.execution_id == e) = [el] →
      s.campaigns.filter (fun r => r.execution_id == some e) = [] →
      s.ad_sets.filter (fun r => r.execution_id == some e) = [] →
      s.posts.filter (fun r => r.execution_id == some e) = [] →
      s.research.filter (fun r => r.execution_id == some e) = [] →
      s.media_files.filter (fun r => r.execution_id == some e) = [] →
      ∃ d, getExecutionDetails s now allFetchesOk e = .ok d ∧
        d.campaigns = [] ∧ d.adSets = [] ∧ d.posts = [] ∧
        d.research = [] ∧ d.mediaFiles = [] ∧
        d.summary.campaigns_created = 0 ∧ d.summary.ad_sets_created = 0 ∧
        d.summary.posts_created = 0 ∧ d.summary.research_entries = 0 ∧
        d.summary.media_files_created = 0) := by
  constructor
  · intro hnone f
    have hl : s.execution_logs.filter (fun r => r.execution_id == e) = [] := by
      rw [List.filter_eq_nil_iff]
      intro el hmem
      simpa using hnone el hmem
    refine ⟨_, getExecutionDetails_error_of_nil s now f e ?_⟩
    rw [summary_filter_eq, hl]
    rfl
  · intro el hl hc ha hp hr hm
    have hfil : (execution_summary s now).filter
        (fun r => r.execution_id == e) = [projectRow s now el] := by
      rw [summary_filter_eq, hl]
      rfl
    have he : el.execution_id = e := by
      have hmem : el ∈ s.execution_logs.filter (fun r => r.execution_id == e) := by
        rw [hl]
        exact List.mem_cons_self _ _
      simpa using (List.mem_filter.mp hmem).2
    refine ⟨_, getExecutionDetails_ok_of_single s now allFetchesOk e _ hfil,
      ?_, ?_, ?_, ?_, ?_, ?_, ?_, ?_, ?_, ?_⟩ <;>
    · simp [assembledData, allFetchesOk, projectRow, he, hc, ha, hp, hr, hm,
        orderDesc]

/-- Witness for C4 over `justLedgerStore`: the unknown identifier `E404`
fails, while `E1` (which tagged nothing) yields an all-empty, all-zero
trace. -/
theorem assemble_notfound_and_empty_witness :
    (∃ msg, getExecutionDetails justLedgerStore 200 allFetchesOk "E404" =
      .error msg) ∧
    (∃ d, getExecutionDetails justLedgerStore 200 allFetchesOk "E1" = .ok d ∧
      d.campaigns = [] ∧ d.adSets = [] ∧ d.posts = [] ∧
      d.research = [] ∧ d.mediaFiles = [] ∧
      d.summary.campaigns_created = 0 ∧ d.summary.ad_sets_created = 0 ∧
      d.summary.posts_created = 0 ∧ d.summary.research_entries = 0 ∧
      d.summary.media_files_created = 0) :=
  ⟨(assemble_notfound_and_empty justLedgerStore 200 "E404").1
      (by decide) allFetchesOk,
   (assemble_notfound_and_empty justLedgerStore 200 "E1").2 elRunning
      (by decide) (by decide) (by decide) (by decide) (by decide) (by decide)⟩

/-- C1 counterexample: over a store whose execution `E1` tagged no entities,
the trace assembled while every entity-collection fetch fails transiently is
identical to the trace assembled when every fetch succeeds — the returned
Trace records no warning (it has no warning channel at all), so the partial
failure is not "recorded on the returned Trace" as the claim states, and
the caller cannot surface it. -/
theorem assemble_no_warning_recorded_cex :
    getExecutionDetails justLedgerStore 200 failEntityFetches "E1" =
      getExecutionDetails justLedgerStore 200 allFetchesOk "E1" := by
  decide

/-- C1 amended: when the summary fetch succeeds but individual
entity-collection fetches fail, `getExecutionDetails` still succeeds and
returns an empty list for each failed collection (`data || []`); however no
warning of the partial failure is recorded on the returned Trace — the
result is indistinguishable from a successful fetch that found no rows. -/
theorem assemble_partial_fetch_degrades (s : Store) (now : Int)
    (f : FetchOutcomes) (e : String) (x : ExecutionSummary)
    (h : (execution_summary s now).filter (fun r => r.execution_id == e) = [x]) :
    ∃ d, getExecutionDetails s now f e = .ok d ∧
      (f.campaignsOk = false → d.campaigns = []) ∧
      (f.adSetsOk = false → d.adSets = []) ∧
      (f.postsOk = false → d.posts = []) ∧
      (f.researchOk = false → d.research = []) ∧
      (f.mediaFilesOk = false → d.mediaFiles = []) := by
  refine ⟨assembledData s f e x,
    getExecutionDetails_ok_of_single s now f e x h, ?_, ?_, ?_, ?_, ?_⟩ <;>
  · intro hf
    simp [assembledData, hf]

/-- Witness for the amended C1 at `sampleStore` with the campaigns fetch
failing: assembly still succeeds and the campaigns collection degrades to
empty (even though two campaigns are tagged `E1`). -/
theorem assemble_partial_fetch_degrades_witness :
    ((execution_summary sampleStore 200).filter
      (fun r => r.execution_id == "E1") = [sampleSummaryE1]) ∧
    (∃ d, getExecutionDetails sampleStore 200 failCampaignsFetch "E1" = .ok d ∧
      (failCampaignsFetch.campaignsOk = false → d.campaigns = []) ∧
      (failCampaignsFetch.adSetsOk = false → d.adSets = []) ∧
      (failCampaignsFetch.postsOk = false → d.posts = []) ∧
      (failCampaignsFetch.researchOk = false → d.research = []) ∧
      (failCampaignsFetch.mediaFilesOk = false → d.mediaFiles = [])) :=
  ⟨by decide,
   assemble_partial_fetch_degrades sampleStore 200 failCampaignsFetch "E1"
     sampleSummaryE1 (by decide)⟩

/-- C9: two assemblies of the same execution against an unchanged store —
even at different read instants, so the running-duration field may differ —
return the same entity identifiers in the same order and the same five
counts: the read is deterministic in the store state. -/
theorem assemble_idempotent (s : Store) (f : FetchOutcomes) (e : String)
    (t1 t2 : Int) (d1 d2 : ExecutionData)
    (h1 : getExecutionDetails s t1 f e = .ok d1)
    (h2 : getExecutionDetails s t2 f e = .ok d2) :
    (d1.campaigns.map (fun r => r.id) = d2.campaigns.map (fun r => r.id) ∧
     d1.adSets.map (fun r => r.id) = d2.adSets.map (fun r => r.id) ∧
     d1.posts.map (fun r => r.id) = d2.posts.map (fun r => r.id) ∧
     d1.research.map (fun r => r.id) = d2.research.map (fun r => r.id) ∧
     d1.mediaFiles.map (fun r => r.id) = d2.mediaFiles.map (fun r => r.id)) ∧
    (d1.summary.campaigns_created = d2.summary.campaigns_created ∧
     d1.summary.ad_sets_created = d2.summary.ad_sets_created ∧
     d1.summary.posts_created = d2.summary.posts_created ∧
     d1.summary.research_entries = d2.summary.research_entries ∧
     d1.summary.media_files_created = d2.summary.media_files_created) := by
  obtain ⟨x1, hf1, rfl⟩ := getExecutionDetails_ok_elim s t1 f e d1 h1
  obtain ⟨x2, hf2, rfl⟩ := getExecutionDetails_ok_elim s t2 f e d2 h2
  refine ⟨⟨rfl, rfl, rfl, rfl, rfl⟩, ?_⟩
  rw [summary_filter_eq] at hf1 hf2
  cases hl : s.execution_logs.filter (fun el => el.execution_id == e) with
  | nil =>
    rw [hl] at hf1
    cases hf1
  | cons el t =>
    cases t with
    | nil =>
      rw [hl] at hf1 hf2
      simp only [List.map_cons, List.map_nil, List.cons.injEq,
        and_true] at hf1 hf2
      subst hf1
      subst hf2
      exact ⟨rfl, rfl, rfl, rfl, rfl⟩
    | cons el2 t2' =>
      rw [hl] at hf1
      simp at hf1

/-- Witness for C9 at `sampleStore`: assembling `E1` at times 200 and 300
gives the same campaign count even though the duration fields differ. -/
theorem assemble_idempotent_witness :
    getExecutionDetails sampleStore 200 allFetchesOk "E1" = .ok sampleTraceE1 ∧
    getExecutionDetails sampleStore 300 allFetchesOk "E1" =
      .ok sampleTraceE1Later ∧
    sampleTraceE1.summary.campaigns_created =
      sampleTraceE1Later.summary.campaigns_created :=
  ⟨by decide, by decide,
   (assemble_idempotent sampleStore allFetchesOk "E1" 200 300
      sampleTraceE1 sampleTraceE1Later (by decide) (by decide)).2.1⟩

/-- C2 counterexample: when the poll first observes a terminal status
(`completed`), `subscribeToExecution` invokes the callback zero further
times — not exactly once more as the claim states — and simply clears the
interval. -/
theorem subscribe_no_final_callback_cex :
    (subscribePollRun [some "completed"]).1 = 0 ∧
      (subscribePollRun [some "completed"]).1 ≠ 1 := by
  decide

/-- C2 amended: the first time the polling loop observes a status other than
`running` it clears the interval and stops, without invoking the callback
for that observation and with no invocation afterwards; the only callback
invocations are one per earlier poll that observed `running` (the callback
is nullary — no Trace is ever passed to it). -/
theorem subscribe_terminal_stops_without_callback
    (pre post : List (Option String)) (st : String)
    (hpre : ∀ o ∈ pre, o = none ∨ o = some "running")
    (hst : st ≠ "running") :
    subscribePollRun (pre ++ some st :: post) =
      ((pre.filter (fun o => o == some "running")).length, true) := by
  induction pre with
  | nil =>
    simp only [List.nil_append, List.filter_nil, List.length_nil]
    simp [subscribePollRun, hst]
  | cons o rest ih =>
    have ho := hpre o (List.mem_cons_self _ _)
    have hrest : ∀ o ∈ rest, o = none ∨ o = some "running" :=
      fun o' ho' => hpre o' (List.mem_cons_of_mem _ ho')
    rcases ho with rfl | rfl
    · show subscribePollRun (rest ++ some st :: post) =
        ((rest.filter (fun o => o == some "running")).length, true)
      exact ih hrest
    · show ((subscribePollRun (rest ++ some st :: post)).1 + 1,
          (subscribePollRun (rest ++ some st :: post)).2) =
        ((rest.filter (fun o => o == some "running")).length + 1, true)
      rw [ih hrest]

/-- Witness for the amended C2: one running poll, then a `completed`
observation, then a further (never reached) observation: exactly one
invocation in total and the interval is cleared. -/
theorem subscribe_terminal_stops_witness :
    (∀ o ∈ [some "running"], o = none ∨ o = some "running") ∧
    "completed" ≠ "running" ∧
    subscribePollRun [some "running", some "completed", some "running"] =
      (1, true) :=
  ⟨by decide, by decide,
   subscribe_terminal_stops_without_callback [some "running"] [some "running"]
     "completed" (by decide) (by decide)⟩

/-- C6 counterexample: three consecutive polls all observing the same
unchanged `running` summary each invoke the callback — three invocations,
where the claim (invoke exactly when status or a count differs from the
last delivered trace) would allow at most the initial one. -/
theorem subscribe_unchanged_still_invokes_cex :
    (subscribePollRun [some "running", some "running", some "running"]).1 = 3 ∧
      ¬ (subscribePollRun
          [some "running", some "running", some "running"]).1 ≤ 1 := by
  decide

/-- C6 amended: the poll interval is the fixed default 5000 ms, and the
callback fires on every poll whose observed status is `running`, regardless
of whether anything changed since the previous poll; no freshly assembled
Trace is passed (the callback is nullary). -/
theorem subscribe_fixed_interval_invokes_every_poll
    (l : List (Option String)) (h : ∀ o ∈ l, o = some "running") :
    POLL_INTERVAL_MS = 5000 ∧ (subscribePollRun l).1 = l.length := by
  refine ⟨rfl, ?_⟩
  induction l with
  | nil => rfl
  | cons o rest ih =>
    have ho := h o (List.mem_cons_self _ _)
    subst ho
    show (subscribePollRun rest).1 + 1 = rest.length + 1
    rw [ih (fun o' ho' => h o' (List.mem_cons_of_mem _ ho'))]

/-- Witness for the amended C6: two polls both observing `running` give two
invocations at the fixed 5000 ms interval. -/
theorem subscribe_fixed_interval_witness :
    (∀ o ∈ [some "running", some "running"], o = some "running") ∧
    (POLL_INTERVAL_MS = 5000 ∧
      (subscribePollRun [some "running", some "running"]).1 = 2) :=
  ⟨by decide,
   subscribe_fixed_interval_invokes_every_poll
     [some "running", some "running"] (by decide)⟩
